import Mathlib

/-!
# Verification of `rdflib_endpoint/sparql_router.py`

A shallow embedding of the SPARQL-endpoint router: content negotiation,
operation-kind derivation, the HTTP GET/POST handlers, and the custom
`Extend` (BIND) evaluator `eval_custom_functions`.  External rdflib calls
(`prepareQuery`, `graph.query`, `serialize`, `evalPart`, `_eval`) are taken
as function parameters; the small rdflib helpers whose behaviour the router
depends on (`FrozenBindings.forget`, `FrozenBindings.merge`,
`urllib.parse.parse_qsl`, `urllib.parse.unquote`) are embedded from their
library sources.
-/

namespace SparqlRouter

/-! ## Content-type table and negotiation (lines 89-108, 236-252) -/

/-- `DEFAULT_CONTENT_TYPE = "application/xml"` (line 89). -/
def DEFAULT_CONTENT_TYPE : String := "application/xml"

/-- `CONTENT_TYPE_TO_RDFLIB_FORMAT` (lines 93-108), as an association list
in the source's order. -/
def CONTENT_TYPE_TO_RDFLIB_FORMAT : List (String × String) :=
  [("application/sparql-results+json", "json"),
   ("application/json", "json"),
   ("text/json", "json"),
   ("application/sparql-results+xml", "xml"),
   ("application/xml", "xml"),
   ("application/rdf+xml", "xml"),
   ("text/xml", "xml"),
   ("application/sparql-results+csv", "csv"),
   ("text/csv", "csv"),
   ("text/turtle", "ttl")]

/-- Dictionary lookup `CONTENT_TYPE_TO_RDFLIB_FORMAT[m]`, `none` = `KeyError`. -/
def lookupFormat (m : String) : Option String :=
  (CONTENT_TYPE_TO_RDFLIB_FORMAT.find? (fun p => p.1 = m)).map Prod.snd

/-- Lines 236-241: `output_mime_type = request.headers.get("accept") or
DEFAULT_CONTENT_TYPE`, then fall back to the default when the value is not a
key of the table.  A missing header is `none`; an empty header string is
falsy in Python, hence also the default. -/
def rawAccept (accept : Option String) : String :=
  match accept with
  | none => DEFAULT_CONTENT_TYPE
  | some a => if a = "" then DEFAULT_CONTENT_TYPE else a

/-- Line 240-241: fall back to the default when the requested value is not a
key of the table. -/
def resolveAccept (accept : Option String) : String :=
  if (lookupFormat (rawAccept accept)).isSome then rawAccept accept
  else DEFAULT_CONTENT_TYPE

/-- Lines 243-252: the Construct-query substitution.  The source tests the
*media-type string* itself (`output_mime_type in {"application/json",
"text/csv"}` and `== "application/xml"`), not the rdflib format it maps to. -/
def constructSub (queryOperation : String) (m : String) : String :=
  if queryOperation = "Construct Query" then
    if m = "application/json" ∨ m = "text/csv" then "text/turtle"
    else if m = "application/xml" then "application/rdf+xml"
    else m
  else m

/-! ## Operation-kind derivation (line 209) -/

/-- `[A-Z]` of the regex at line 209. -/
def isUpperAZ (c : Char) : Bool := 'A' ≤ c && c ≤ 'Z'

/-- `\w` of the regex at line 209 (ASCII word characters; the algebra names
fed to it are ASCII). -/
def isWordChar (c : Char) : Bool :=
  ('a' ≤ c && c ≤ 'z') || ('A' ≤ c && c ≤ 'Z') || ('0' ≤ c && c ≤ '9') || c = '_'

/-- `re.sub(r"(\w)([A-Z])", r"\1 \2", s)`: left-to-right, non-overlapping —
after a two-character match the scan resumes *after* the matched pair. -/
def reSubSpace : List Char → List Char
  | [] => []
  | [c] => [c]
  | c1 :: c2 :: rest =>
    if isWordChar c1 && isUpperAZ c2 then c1 :: ' ' :: c2 :: reSubSpace rest
    else c1 :: reSubSpace (c2 :: rest)

/-- Line 209: `query_operation = re.sub(r"(\w)([A-Z])", r"\1 \2",
parsed_query.algebra.name)`. -/
def queryOperation (algebraName : String) : String :=
  String.mk (reSubSpace algebraName.data)

/-- Modelled from the spec: the transformation as the spec describes it —
"inserting a space before each internal uppercase letter that follows a
lowercase letter", and before no other character.  Declared only to be
compared with `reSubSpace`, the transformation the code performs. -/
def specSpacingRule : List Char → List Char
  | [] => []
  | [c] => [c]
  | c1 :: c2 :: rest =>
    if ('a' ≤ c1 && c1 ≤ 'z') && isUpperAZ c2 then c1 :: ' ' :: specSpacingRule (c2 :: rest)
    else c1 :: specSpacingRule (c2 :: rest)

/-- The four algebra root names rdflib's `prepareQuery` can produce for a
query (`SelectQuery | ConstructQuery | DescribeQuery | AskQuery`, cf. the
comment at line 217 of the source). -/
def queryAlgebraRootNames : List String :=
  ["SelectQuery", "ConstructQuery", "AskQuery", "DescribeQuery"]

/-! ## `urllib.parse` helpers used by the POST handler (lines 283-288) -/

/-- Hexadecimal digit value, as accepted by percent-decoding. -/
def hexVal (c : Char) : Option Nat :=
  if '0' ≤ c ∧ c ≤ '9' then some (c.toNat - '0'.toNat)
  else if 'a' ≤ c ∧ c ≤ 'f' then some (c.toNat - 'a'.toNat + 10)
  else if 'A' ≤ c ∧ c ≤ 'F' then some (c.toNat - 'A'.toNat + 10)
  else none

/-- `urllib.parse.unquote` on a character list: a `%` followed by two hex
digits decodes to that byte; an invalid escape is left as-is.  (Decoded bytes
are mapped to code points directly; all inputs of interest are ASCII.) -/
def unquoteChars : List Char → List Char
  | [] => []
  | '%' :: a :: b :: rest =>
    match hexVal a, hexVal b with
    | some ha, some hb => Char.ofNat (16 * ha + hb) :: unquoteChars rest
    | _, _ => '%' :: unquoteChars (a :: b :: rest)
  | c :: rest => c :: unquoteChars rest

/-- `urllib.parse.unquote` on strings. -/
def unquote (s : String) : String := String.mk (unquoteChars s.data)

/-- `urllib.parse.unquote_plus`: `+` becomes a space, then percent-decoding.
`parse_qsl` applies this to each field name and value. -/
def unquotePlus (s : String) : String :=
  String.mk (unquoteChars (s.data.map (fun c => if c = '+' then ' ' else c)))

/-- Python `str.split(sep)` on a character list: `"".split` is `[""]`, and a
trailing or leading separator yields an empty piece. -/
def splitOnChar (sep : Char) : List Char → List (List Char)
  | [] => [[]]
  | c :: rest =>
    if c = sep then [] :: splitOnChar sep rest
    else
      match splitOnChar sep rest with
      | [] => [[c]]
      | g :: gs => (c :: g) :: gs

/-- Python `str.split(sep, 1)` restricted to what `parse_qsl` needs: the
pieces before and after the first separator, or `none` when the separator
does not occur. -/
def splitFirst (sep : Char) : List Char → Option (List Char × List Char)
  | [] => none
  | c :: rest =>
    if c = sep then some ([], rest)
    else
      match splitFirst sep rest with
      | none => none
      | some (a, b) => some (c :: a, b)

/-- `urllib.parse.parse_qsl(body)` with default arguments: split the body on
`&`; drop empty fields, fields without `=`, and fields with an empty value;
split each remaining field at the first `=` and decode name and value with
`unquote_plus`. -/
def parse_qsl (body : String) : List (String × String) :=
  (splitOnChar '&' body.data).filterMap fun field =>
    if field = [] then none
    else
      match splitFirst '=' field with
      | none => none
      | some (n, v) =>
        if v = [] then none
        else some (unquotePlus (String.mk n), unquotePlus (String.mk v))

/-- `str.startswith(prefix)`, kept on character lists. -/
def startsWithChars : List Char → List Char → Bool
  | _, [] => true
  | [], _ :: _ => false
  | c :: cs, p :: ps => c = p && startsWithChars cs ps

/-- Line 181: `str(request.headers["accept"]).startswith("text/html")`. -/
def strStartsWith (s pre : String) : Bool := startsWithChars s.data pre.data

/-! ## The HTTP handlers (lines 173-289) -/

/-- The external rdflib capabilities the handler calls, plus the opaque
documents it serves: `prepareQuery` (returning the algebra root name on
success), `graph.query` (returning a token for the result set),
`Result.serialize` applied to that token and an rdflib format key, the
rendered console page (`serve_yasgui`), and the two serializations of the
service-description graph (`get_service_graph().serialize`). -/
structure Caps where
  prepare : String → Except String String
  execQuery : String → Except String Nat
  serializeResult : Nat → String → Except String String
  consolePage : String
  sdTurtle : String
  sdXml : String

/-- An HTTP response: either a `Response(body, media_type)` (status 200) or a
`JSONResponse(status_code, content={"message": message})` whose body is a
JSON object with the single field `message`. -/
inductive Resp where
  | content (body : String) (mediaType : String) : Resp
  | jsonMsg (status : Nat) (message : String) : Resp
deriving DecidableEq, Repr

/-- An uncaught Python exception escaping the handler. -/
inductive PyExc where
  | keyError (key : String) : PyExc
deriving DecidableEq, Repr

/-- The GET handler `sparql_endpoint` (lines 173-267).  `query` is the
query-string parameter (`None` when absent) and `accept` the `accept`
request header (`none` when absent; `request.headers["accept"]` at line 181
raises `KeyError` then, while line 236 uses `.get` with the default). -/
def sparql_endpoint (caps : Caps) (query : Option String) (accept : Option String) :
    Except PyExc Resp :=
  if (query.getD "") = "" then
    match accept with
    | none => .error (.keyError "accept")
    | some a =>
      if strStartsWith a "text/html" then .ok (.content caps.consolePage "text/html")
      else if a = "text/turtle" then .ok (.content caps.sdTurtle "text/turtle")
      else .ok (.content caps.sdXml "application/xml")
  else
    let q := query.getD ""
    match caps.prepare q with
    | .error _ => .ok (.jsonMsg 400 "Error parsing the SPARQL query")
    | .ok rootName =>
      let op := queryOperation rootName
      match caps.execQuery q with
      | .error _ => .ok (.jsonMsg 400 "Error executing the SPARQL query on the RDFLib Graph")
      | .ok res =>
        let mime := constructSub op (resolveAccept accept)
        match lookupFormat mime with
        | none => .ok (.jsonMsg 422 "Error serializing the SPARQL query results")
        | some fmt =>
          match caps.serializeResult res fmt with
          | .error _ => .ok (.jsonMsg 422 "Error serializing the SPARQL query results")
          | .ok body => .ok (.content body mime)

/-- Lines 281-288 of `post_sparql_endpoint`: when the `query` parameter is
falsy, scan the URL-decoded form fields of the body; every field named
`query` reassigns the query to `parse.unquote` of its (already decoded)
value, so the last such field wins. -/
def postExtractQuery (query : Option String) (body : String) : Option String :=
  if (query.getD "") = "" then
    (parse_qsl body).foldl
      (fun q p => if p.1 = "query" then some (unquote p.2) else q) query
  else query

/-- The POST handler `post_sparql_endpoint` (lines 275-289): extract the
query from the body when the parameter is falsy, then delegate to the GET
handler. -/
def post_sparql_endpoint (caps : Caps) (query : Option String) (body : String)
    (accept : Option String) : Except PyExc Resp :=
  sparql_endpoint caps (postExtractQuery query body) accept

/-! ## The `Extend` evaluator `eval_custom_functions` (lines 291-324)

The evaluator works on rdflib values: `FrozenBindings` rows (here
association lists with Python-dict semantics), the `QueryContext`, and the
`Extend` algebra node.  The external calls `evalPart(ctx, part.p)` (the
child subtree's binding stream, fixed once before the loop) and
`_eval(part.expr, scope)` (built-in expression evaluation) enter as the
`childRows` argument and the function stored in a `builtin` expression. -/

/-- An RDF term. `Term.lit s` is `Literal(s)`. -/
inductive Term where
  | uri (s : String) : Term
  | lit (s : String) : Term
deriving DecidableEq, Repr

/-- A partial solution row (rdflib `FrozenBindings`): a finite map from
variable names to terms, kept as an association list with unique keys in
insertion order, as a Python dict is. -/
abbrev Row := List (String × Term)

/-- First (and with unique keys, only) binding of a variable in a row. -/
def lookupRow (r : Row) (v : String) : Option Term :=
  (r.find? (fun p => p.1 = v)).map Prod.snd

/-- Python-dict insertion: an existing key keeps its position and gets the
new value; a new key is appended. -/
def dictInsert (r : Row) (k : String) (v : Term) : Row :=
  if r.any (fun p => p.1 = k) then r.map (fun p => if p.1 = k then (k, v) else p)
  else r ++ [(k, v)]

/-- rdflib `FrozenBindings.merge`: the dict built from the chained items of
both rows — entries of `other` win on key collision. -/
def merge (r other : Row) : Row :=
  other.foldl (fun acc p => dictInsert acc p.1 p.2) r

/-- The slice of rdflib's `QueryContext` the evaluator reads: which
variables appear in `initBindings`, and the context's own bindings
(`ctx[var]`, `None` when unbound). -/
structure Ctx where
  initVars : List String
  bound : List (String × Term)
deriving DecidableEq, Repr

/-- `QueryContext.__getitem__`: the context's binding of a variable, `none`
(Python `None`) when unbound. -/
def ctxLookup (c : Ctx) (v : String) : Option Term :=
  (c.bound.find? (fun p => p.1 = v)).map Prod.snd

/-- rdflib `FrozenBindings.forget(before, _except)`, as called at line 316
with `before = ctx` and `_except = part._vars`: keep exactly the bindings
whose variable is in `_except`, or in the context's `initBindings`, or
unbound in `before`.  (The `initBindings` test reads the row's own stored
context, which in this evaluator is the same query context.) -/
def forget (ep : Row) (before : Ctx) (exceptVars : List String) : Row :=
  ep.filter fun p =>
    exceptVars.contains p.1 || before.initVars.contains p.1 || (ctxLookup before p.1).isNone

/-- Result of rdflib's `_eval` on a built-in expression: a scalar value, or
a `SPARQLError` instance returned as a value (line 317 checks for it). -/
inductive EvalOut where
  | val (v : String) : EvalOut
  | err (msg : String) : EvalOut

/-- A BIND expression: either an expression object carrying an `iri`
attribute (a call to a URI-identified function) or a built-in expression,
embedded by what `_eval` does on it given a scope. -/
inductive Expr where
  | call (iri : String) : Expr
  | builtin (evalFn : Row → EvalOut) : Expr

/-- The fields of the `Extend` algebra `CompValue` the evaluator reads:
`part.name`, `part.var`, `part.expr`, `part._vars`. -/
structure PartNode where
  name : String
  var : String
  expr : Expr
  vars : List String

/-- What a custom function call returns, seen through the tuple unpacking
`query_results, ctx, part, _ = custom_function(...)` at line 312: a 4-tuple
unpacks, anything else raises `ValueError`. -/
inductive CFRet where
  | tuple4 (results : List Row) (c : Ctx) (n : PartNode) (extra : Option Term) : CFRet
  | tuple3 (results : List Row) (c : Ctx) (n : PartNode) : CFRet
  | tupleOther (len : Nat) : CFRet

/-- A registered custom function, applied to
`(query_results, ctx, part, eval_part)`. -/
abbrev CustomFn := List Row → Ctx → PartNode → Row → CFRet

/-- `self.functions`, a dict from URI string to custom function, iterated in
insertion order. -/
abbrev Registry := List (String × CustomFn)

/-- A Python exception raised during evaluation. -/
inductive PyErr where
  | sparqlError (msg : String) : PyErr
  | valueError : PyErr
  | attributeError : PyErr
  | notImplementedError : PyErr
deriving DecidableEq, Repr

/-- The loop-carried state of `eval_custom_functions`: the local
`query_results` plus the (reassignable) variables `ctx` and `part`. -/
structure LoopState where
  results : List Row
  qctx : Ctx
  node : PartNode

/-- Lines 308-312: `for function_uri, custom_function in
self.functions.items(): if part.expr.iri == URIRef(function_uri): ...`.
Each matching entry unpacks the function's return into the carried state;
`part.expr.iri` is re-read on the current node each iteration (and would
raise `AttributeError` on an expression without the attribute). -/
def applyRegistry : Registry → LoopState → Row → Except PyErr LoopState
  | [], st, _ => .ok st
  | (u, cf) :: rest, st, ep =>
    match st.node.expr with
    | .builtin _ => .error .attributeError
    | .call iri =>
      if iri = u then
        match cf st.results st.qctx st.node ep with
        | .tuple4 r c n _ => applyRegistry rest ⟨r, c, n⟩ ep
        | .tuple3 _ _ _ => .error .valueError
        | .tupleOther _ => .error .valueError
      else applyRegistry rest st ep

/-- The body of the `for eval_part in evalPart(ctx, part.p)` loop (lines
304-321): function-call expressions go through the registry; built-in
expressions are `_eval`uated against `eval_part.forget(ctx,
_except=part._vars)`, a returned `SPARQLError` is raised, and otherwise the
row merged with `{part.var: Literal(result)}` is appended. -/
def processOne (reg : Registry) (st : LoopState) (ep : Row) : Except PyErr LoopState :=
  match st.node.expr with
  | .call _ => applyRegistry reg st ep
  | .builtin f =>
    match f (forget ep st.qctx st.node.vars) with
    | .err m => .error (.sparqlError m)
    | .val v =>
      .ok ⟨st.results ++ [merge ep [(st.node.var, Term.lit v)]], st.qctx, st.node⟩

/-- The whole loop over the child subtree's binding stream. -/
def evalLoop (reg : Registry) : LoopState → List Row → Except PyErr LoopState
  | st, [] => .ok st
  | st, ep :: rest =>
    match processOne reg st ep with
    | .error e => .error e
    | .ok st' => evalLoop reg st' rest

/-- `eval_custom_functions(self, ctx, part)` (lines 291-324), with the child
stream `evalPart(ctx, part.p)` supplied as `childRows`: on an `Extend` node,
run the loop from empty `query_results` and return them; any other node
raises `NotImplementedError`. -/
def eval_custom_functions (reg : Registry) (ctx : Ctx) (part : PartNode)
    (childRows : List Row) : Except PyErr (List Row) :=
  if part.name = "Extend" then (evalLoop reg ⟨[], ctx, part⟩ childRows).map LoopState.results
  else .error .notImplementedError

/-! ## Concrete capability instances used in witnesses -/

/-- Capabilities whose parser classifies every query as a Construct query
and whose execution and serialization succeed. -/
def demoConstructCaps : Caps :=
  ⟨fun _ => .ok "ConstructQuery", fun _ => .ok 0,
   fun _ f => .ok ("demo:" ++ f), "CONSOLE", "SD-TTL", "SD-XML"⟩

/-- Capabilities for which every external rdflib call fails with the
underlying message `boom`. -/
def boomCaps : Caps :=
  ⟨fun _ => .error "boom", fun _ => .error "boom", fun _ _ => .error "boom",
   "CONSOLE", "SD-TTL", "SD-XML"⟩

/-- Capabilities that parse but fail at execution with message `boom`. -/
def execBoomCaps : Caps :=
  ⟨fun _ => .ok "SelectQuery", fun _ => .error "boom", fun _ _ => .error "boom",
   "CONSOLE", "SD-TTL", "SD-XML"⟩

/-- Capabilities that parse and execute but fail at serialization with
message `boom`. -/
def serBoomCaps : Caps :=
  ⟨fun _ => .ok "SelectQuery", fun _ => .ok 0, fun _ _ => .error "boom",
   "CONSOLE", "SD-TTL", "SD-XML"⟩

/-! ## Helper lemmas -/

/-- The accept-resolution step always lands on a key of the content-type
table. -/
theorem lookupFormat_resolveAccept (a : Option String) :
    (lookupFormat (resolveAccept a)).isSome := by
  unfold resolveAccept
  cases h : lookupFormat (rawAccept a) with
  | none => simp [h]; decide
  | some f => simp [h]

/-- The Construct-query substitution maps table keys to table keys. -/
theorem lookupFormat_constructSub (op : String) (a : Option String) :
    (lookupFormat (constructSub op (resolveAccept a))).isSome := by
  have h := lookupFormat_resolveAccept a
  unfold constructSub
  split
  · split
    · decide
    · split
      · decide
      · exact h
  · exact h

/-- Scanning the form fields for `query` either ends at a value independent
of the starting accumulator (some field matched) or returns the accumulator
unchanged (no field matched). -/
theorem queryFold_cases (ps : List (String × String)) (q0 q1 : Option String) :
    ps.foldl (fun q p => if p.1 = "query" then some (unquote p.2) else q) q0
      = ps.foldl (fun q p => if p.1 = "query" then some (unquote p.2) else q) q1
    ∨ (ps.foldl (fun q p => if p.1 = "query" then some (unquote p.2) else q) q0 = q0
       ∧ ps.foldl (fun q p => if p.1 = "query" then some (unquote p.2) else q) q1 = q1) := by
  induction ps generalizing q0 q1 with
  | nil => exact Or.inr ⟨rfl, rfl⟩
  | cons p ps ih =>
    simp only [List.foldl_cons]
    by_cases hp : p.1 = "query"
    · exact Or.inl (by simp only [if_pos hp])
    · simp only [if_neg hp]
      exact ih q0 q1

/-! ## Claim theorems -/

/-- Claim C1, counterexample.  The claim says the Construct-query
substitution is keyed on the *resolved format*: json or csv would force
`text/turtle`.  At `Accept: application/sparql-results+json` the resolved
format is `json`, yet the executed Construct query is answered with media
type `application/sparql-results+json`, not `text/turtle`: the code keys the
substitution on the exact media-type string, and
`application/sparql-results+json` is not in its substitution set. -/
theorem c1_counterexample :
    lookupFormat (resolveAccept (some "application/sparql-results+json")) = some "json"
    ∧ sparql_endpoint demoConstructCaps (some "CONSTRUCT-DEMO-QUERY")
        (some "application/sparql-results+json")
        = .ok (.content "demo:json" "application/sparql-results+json")
    ∧ ("application/sparql-results+json" : String) ≠ "text/turtle" := by
  refine ⟨by decide, by rfl, by decide⟩

/-- Claim C1, amended: for every executed Construct query, the substitution
applies to the resolved *media type* itself — exactly `application/json` or
`text/csv` becomes `text/turtle`, exactly `application/xml` becomes
`application/rdf+xml`, and any other resolved media type (even one whose
rdflib format is `json`, `csv` or `xml`) passes through unchanged; the
response carries the substituted media type. -/
theorem c1_construct_substitution (caps : Caps) (q : String) (accept : Option String)
    (tok : Nat) (out : String → String)
    (hq : q ≠ "")
    (hprep : caps.prepare q = .ok "ConstructQuery")
    (hexec : caps.execQuery q = .ok tok)
    (hser : ∀ f, caps.serializeResult tok f = .ok (out f)) :
    (∃ f, sparql_endpoint caps (some q) accept
        = .ok (.content (out f) (constructSub "Construct Query" (resolveAccept accept))))
    ∧ ((resolveAccept accept = "application/json" ∨ resolveAccept accept = "text/csv") →
        constructSub "Construct Query" (resolveAccept accept) = "text/turtle")
    ∧ (resolveAccept accept = "application/xml" →
        constructSub "Construct Query" (resolveAccept accept) = "application/rdf+xml")
    ∧ (¬(resolveAccept accept = "application/json" ∨ resolveAccept accept = "text/csv"
          ∨ resolveAccept accept = "application/xml") →
        constructSub "Construct Query" (resolveAccept accept) = resolveAccept accept) := by
  refine ⟨?_, ?_, ?_, ?_⟩
  · have hsome := lookupFormat_constructSub "Construct Query" accept
    cases hf : lookupFormat (constructSub "Construct Query" (resolveAccept accept)) with
    | none => rw [hf] at hsome; simp at hsome
    | some f =>
      refine ⟨f, ?_⟩
      have hop : queryOperation "ConstructQuery" = "Construct Query" := by decide
      simp only [sparql_endpoint, Option.getD, if_neg hq, hprep, hop, hexec, hf, hser f]
  · intro h
    unfold constructSub
    rcases h with h | h <;> simp [h]
  · intro h
    unfold constructSub
    simp [h]
  · intro h
    push_neg at h
    unfold constructSub
    rcases h with ⟨h1, h2, h3⟩
    simp [h1, h2, h3]

/-- Claim C1 witness: at `Accept: application/json` the amended substitution
fires and the Construct query is answered as `text/turtle`. -/
theorem c1_construct_substitution_witness :
    (∃ f, sparql_endpoint demoConstructCaps (some "CONSTRUCT-DEMO-QUERY")
        (some "application/json")
        = .ok (.content ("demo:" ++ f)
            (constructSub "Construct Query" (resolveAccept (some "application/json")))))
    ∧ constructSub "Construct Query" (resolveAccept (some "application/json"))
        = "text/turtle" := by
  have h := c1_construct_substitution demoConstructCaps "CONSTRUCT-DEMO-QUERY"
    (some "application/json") 0 (fun f => "demo:" ++ f) (by decide) rfl rfl (fun _ => rfl)
  exact ⟨h.1, h.2.1 (Or.inl (by decide))⟩

/-- Claim C6, confirmed on the whole domain of the quantifier: rdflib's
`prepareQuery` roots a query algebra in one of `SelectQuery`,
`ConstructQuery`, `AskQuery`, `DescribeQuery`, and on each of these names
the code's transformation `re.sub(r"(\w)([A-Z])", r"\1 \2", -)` agrees with
the spec's rule of inserting a space exactly before each internal uppercase
letter that follows a lowercase letter.  (On strings with consecutive
uppercase letters the two transformations would differ — e.g. `ABC` becomes
`A BC` under the code's regex — but no parsed query produces such a root
name.) -/
theorem c6_operation_kind (n : String) (h : n ∈ queryAlgebraRootNames) :
    queryOperation n = String.mk (specSpacingRule n.data) := by
  simp only [queryAlgebraRootNames, List.mem_cons, List.mem_singleton] at h
  rcases h with rfl | rfl | rfl | rfl | h
  · rfl
  · rfl
  · rfl
  · rfl
  · simp at h

/-- Claim C6 witness: `SelectQuery` becomes `Select Query` under both the
code's transformation and the spec's rule. -/
theorem c6_operation_kind_witness :
    ("SelectQuery" : String) ∈ queryAlgebraRootNames
    ∧ queryOperation "SelectQuery" = String.mk (specSpacingRule "SelectQuery".data)
    ∧ queryOperation "SelectQuery" = "Select Query" :=
  ⟨by decide, c6_operation_kind "SelectQuery" (by decide), by rfl⟩

/-- Claim C8, confirmed: an `Accept` value that is not a key of the
content-type table resolves to `application/xml` in the resolution step, for
every query operation kind, before the Construct-query substitution is
applied to the resolved value. -/
theorem c8_default_fallback (a op : String) (h : lookupFormat a = none) :
    resolveAccept (some a) = "application/xml"
    ∧ constructSub op (resolveAccept (some a)) = constructSub op "application/xml" := by
  have h1 : resolveAccept (some a) = "application/xml" := by
    unfold resolveAccept rawAccept
    by_cases ha : a = ""
    · subst ha; decide
    · simp only [if_neg ha, h]
      simp [DEFAULT_CONTENT_TYPE]
  exact ⟨h1, by rw [h1]⟩

/-- Claim C8 witness: `Accept: text/plain` is not in the table and resolves
to `application/xml`, also under a Construct query's substitution step. -/
theorem c8_default_fallback_witness :
    lookupFormat "text/plain" = none
    ∧ resolveAccept (some "text/plain") = "application/xml"
    ∧ constructSub "Construct Query" (resolveAccept (some "text/plain"))
        = constructSub "Construct Query" "application/xml" :=
  ⟨by decide, (c8_default_fallback "text/plain" "Construct Query" (by decide)).1,
   (c8_default_fallback "text/plain" "Construct Query" (by decide)).2⟩

/-- Claim C9, confirmed: with no query and no `accept` header the GET
handler raises `KeyError` on the header lookup at line 181, returning no
response at all; with a (non-empty) query present, a missing `accept`
header instead falls back to the `application/xml` default because line 236
uses `.get` with a default. -/
theorem c9_missing_accept (caps : Caps) (q : String) (hq : q ≠ "") :
    sparql_endpoint caps none none = .error (.keyError "accept")
    ∧ sparql_endpoint caps (some q) none
        = sparql_endpoint caps (some q) (some "application/xml") := by
  constructor
  · rfl
  · have hr : resolveAccept none = resolveAccept (some "application/xml") := by decide
    simp only [sparql_endpoint, Option.getD_some, if_neg hq, hr]

/-- Claim C9 witness: instantiated at a concrete query and concrete
capabilities. -/
theorem c9_missing_accept_witness :
    sparql_endpoint demoConstructCaps none none = .error (.keyError "accept")
    ∧ sparql_endpoint demoConstructCaps (some "CONSTRUCT-DEMO-QUERY") none
        = sparql_endpoint demoConstructCaps (some "CONSTRUCT-DEMO-QUERY")
            (some "application/xml") :=
  c9_missing_accept demoConstructCaps "CONSTRUCT-DEMO-QUERY" (by decide)

/-- Claim C10, confirmed: an empty-string query parameter is falsy in
Python, so both handlers behave exactly as if the query were absent; in the
GET case with an `accept` header present this serves the console page (for
`text/html` prefixes) or the service description (turtle or XML), and never
any JSON error response — in particular never a 400 parse error for the
empty query. -/
theorem c10_empty_query (caps : Caps) (accept : Option String) (body : String) :
    sparql_endpoint caps (some "") accept = sparql_endpoint caps none accept
    ∧ post_sparql_endpoint caps (some "") body accept
        = post_sparql_endpoint caps none body accept
    ∧ (∀ a, accept = some a →
        (strStartsWith a "text/html" = true →
          sparql_endpoint caps (some "") accept
            = .ok (.content caps.consolePage "text/html"))
        ∧ (strStartsWith a "text/html" = false →
          sparql_endpoint caps (some "") accept
            = .ok (.content caps.sdTurtle "text/turtle")
          ∨ sparql_endpoint caps (some "") accept
            = .ok (.content caps.sdXml "application/xml")))
    ∧ (∀ s m, sparql_endpoint caps (some "") accept ≠ .ok (.jsonMsg s m)) := by
  refine ⟨rfl, ?_, ?_, ?_⟩
  · show sparql_endpoint caps
        ((parse_qsl body).foldl
          (fun q p => if p.1 = "query" then some (unquote p.2) else q) (some "")) accept
      = sparql_endpoint caps
        ((parse_qsl body).foldl
          (fun q p => if p.1 = "query" then some (unquote p.2) else q) none) accept
    rcases queryFold_cases (parse_qsl body) (some "") none with h | ⟨h1, h2⟩
    · rw [h]
    · rw [h1, h2]
      rfl
  · rintro a rfl
    constructor
    · intro h
      simp [sparql_endpoint, h]
    · intro h
      by_cases h2 : a = "text/turtle"
      · left
        subst h2
        simp [sparql_endpoint, h]
      · right
        simp [sparql_endpoint, h, h2]
  · intro s m hcon
    cases accept with
    | none => simp [sparql_endpoint] at hcon
    | some a =>
      by_cases h1 : strStartsWith a "text/html"
      · simp [sparql_endpoint, h1] at hcon
      · by_cases h2 : a = "text/turtle"
        · subst h2
          simp [sparql_endpoint, h1] at hcon
        · simp [sparql_endpoint, h1, h2] at hcon

/-- Claim C10 witness: with `Accept: text/html` the empty-string query
serves the console page, and equals the absent-query behaviour. -/
theorem c10_empty_query_witness :
    sparql_endpoint demoConstructCaps (some "") (some "text/html")
      = sparql_endpoint demoConstructCaps none (some "text/html")
    ∧ sparql_endpoint demoConstructCaps (some "") (some "text/html")
      = .ok (.content demoConstructCaps.consolePage "text/html") :=
  ⟨(c10_empty_query demoConstructCaps (some "text/html") "").1,
   ((c10_empty_query demoConstructCaps (some "text/html") "").2.2.1 "text/html" rfl).1
     (by decide)⟩

/-- Claim C5, counterexample.  The claim says the JSON error body's
`message` field carries the underlying error message.  With a parser whose
underlying failure message is `boom`, the handler answers 400 with the fixed
body message `Error parsing the SPARQL query`: the underlying message is
only logged, never returned. -/
theorem c5_counterexample :
    sparql_endpoint boomCaps (some "SELECT-DEMO-QUERY") (some "application/json")
      = .ok (.jsonMsg 400 "Error parsing the SPARQL query")
    ∧ ("Error parsing the SPARQL query" : String) ≠ "boom" :=
  ⟨rfl, by decide⟩

/-- Claim C5, amended: parse failure yields HTTP 400, execution failure
HTTP 400, serialization failure HTTP 422, each with a JSON body holding the
single field `message` and no result payload — but the `message` value is a
fixed per-stage description, not the underlying error message. -/
theorem c5_error_statuses (caps : Caps) (q : String) (accept : Option String) (e : String)
    (hq : q ≠ "") :
    (caps.prepare q = .error e →
      sparql_endpoint caps (some q) accept
        = .ok (.jsonMsg 400 "Error parsing the SPARQL query"))
    ∧ (∀ root, caps.prepare q = .ok root → caps.execQuery q = .error e →
      sparql_endpoint caps (some q) accept
        = .ok (.jsonMsg 400 "Error executing the SPARQL query on the RDFLib Graph"))
    ∧ (∀ root tok f, caps.prepare q = .ok root → caps.execQuery q = .ok tok →
        lookupFormat (constructSub (queryOperation root) (resolveAccept accept)) = some f →
        caps.serializeResult tok f = .error e →
      sparql_endpoint caps (some q) accept
        = .ok (.jsonMsg 422 "Error serializing the SPARQL query results")) := by
  refine ⟨?_, ?_, ?_⟩
  · intro h
    simp only [sparql_endpoint, Option.getD_some, if_neg hq, h]
  · intro root h1 h2
    simp only [sparql_endpoint, Option.getD_some, if_neg hq, h1, h2]
  · intro root tok f h1 h2 h3 h4
    simp only [sparql_endpoint, Option.getD_some, if_neg hq, h1, h2, h3, h4]

/-- Claim C5 witness: the three failure stages at concrete capabilities. -/
theorem c5_error_statuses_witness :
    sparql_endpoint boomCaps (some "Q") (some "text/csv")
      = .ok (.jsonMsg 400 "Error parsing the SPARQL query")
    ∧ sparql_endpoint execBoomCaps (some "Q") (some "text/csv")
      = .ok (.jsonMsg 400 "Error executing the SPARQL query on the RDFLib Graph")
    ∧ sparql_endpoint serBoomCaps (some "Q") (some "text/csv")
      = .ok (.jsonMsg 422 "Error serializing the SPARQL query results") :=
  ⟨(c5_error_statuses boomCaps "Q" (some "text/csv") "boom" (by decide)).1 rfl,
   (c5_error_statuses execBoomCaps "Q" (some "text/csv") "boom" (by decide)).2.1
     "SelectQuery" rfl rfl,
   (c5_error_statuses serBoomCaps "Q" (some "text/csv") "boom" (by decide)).2.2
     "SelectQuery" 0 "csv" rfl rfl (by decide) rfl⟩

/-- Claim C7: the double-decoding bug in the POST body path.  A client whose
query text is `a%20b` form-encodes it as `query=a%2520b`; `parse_qsl`
correctly decodes the field back to `a%20b`, but line 288 applies
`parse.unquote` to the already-decoded value, so the POST handler extracts
and executes `a b` — not the client's query — whereas GET with the same
query text processes `a%20b`. -/
theorem c7_post_double_unquote :
    parse_qsl "query=a%2520b" = [("query", "a%20b")]
    ∧ postExtractQuery none "query=a%2520b" = some "a b"
    ∧ post_sparql_endpoint demoConstructCaps none "query=a%2520b" (some "text/turtle")
        = sparql_endpoint demoConstructCaps (some "a b") (some "text/turtle")
    ∧ ("a b" : String) ≠ "a%20b" :=
  ⟨rfl, rfl, rfl, by decide⟩

/-- Claim C2, counterexample.  The claim says a registered custom function
returns a *triple* whose three components replace the carried state.  A
custom function that does return a triple makes the query fail: line 312
unpacks `query_results, ctx, part, _ = custom_function(...)`, which raises
`ValueError` unless the returned tuple has exactly four components. -/
theorem c2_counterexample :
    eval_custom_functions [("http://example.org/f", fun r c n _ => CFRet.tuple3 r c n)]
      ⟨[], []⟩ ⟨"Extend", "x", Expr.call "http://example.org/f", ["x"]⟩ [[]]
      = .error .valueError := rfl

/-- Claim C2, amended: when the BIND expression carries the URI of the
single registered custom function, the function is invoked with the four
arguments (accumulated results, context, node, current partial binding) and
must return a *4-tuple*; its first three components replace the results,
context and node carried into the remaining iterations, and the fourth
component is discarded. -/
theorem c2_custom_function_threading (u : String) (cf : CustomFn) (st : LoopState)
    (b : Row) (bs : List Row) (r : List Row) (c : Ctx) (n : PartNode) (x : Option Term)
    (hexpr : st.node.expr = Expr.call u)
    (hcf : cf st.results st.qctx st.node b = CFRet.tuple4 r c n x) :
    evalLoop [(u, cf)] st (b :: bs) = evalLoop [(u, cf)] ⟨r, c, n⟩ bs := by
  obtain ⟨res, qc, node⟩ := st
  obtain ⟨nm, v, expr, vars⟩ := node
  cases expr with
  | builtin f => simp at hexpr
  | call iri =>
    injection hexpr with hu
    subst hu
    dsimp only at hcf
    have hp : processOne [(iri, cf)] ⟨res, qc, ⟨nm, v, Expr.call iri, vars⟩⟩ b
        = .ok ⟨r, c, n⟩ := by
      simp [processOne, applyRegistry, hcf]
    simp only [evalLoop]
    rw [hp]

/-- Claim C2 witness: a 4-tuple-returning custom function appends the
current binding and its first three returned components become the state of
the next iteration. -/
theorem c2_custom_function_threading_witness :
    evalLoop [("u", fun rs _ n row => CFRet.tuple4 (rs ++ [row]) ⟨["i"], []⟩ n none)]
      ⟨[], ⟨[], []⟩, ⟨"Extend", "x", Expr.call "u", []⟩⟩
      [[("y", Term.lit "1")], [("y", Term.lit "2")]]
    = evalLoop [("u", fun rs _ n row => CFRet.tuple4 (rs ++ [row]) ⟨["i"], []⟩ n none)]
      ⟨[[("y", Term.lit "1")]], ⟨["i"], []⟩, ⟨"Extend", "x", Expr.call "u", []⟩⟩
      [[("y", Term.lit "2")]] :=
  c2_custom_function_threading "u"
    (fun rs _ n row => CFRet.tuple4 (rs ++ [row]) ⟨["i"], []⟩ n none)
    ⟨[], ⟨[], []⟩, ⟨"Extend", "x", Expr.call "u", []⟩⟩
    [("y", Term.lit "1")] [[("y", Term.lit "2")]]
    [[("y", Term.lit "1")]] ⟨["i"], []⟩ ⟨"Extend", "x", Expr.call "u", []⟩ none
    rfl rfl

/-- Matching no registry entry leaves the carried state untouched. -/
theorem applyRegistry_no_match (reg : Registry) (iri : String) (st : LoopState) (ep : Row)
    (hexpr : st.node.expr = Expr.call iri) (h : ∀ p ∈ reg, p.1 ≠ iri) :
    applyRegistry reg st ep = .ok st := by
  induction reg with
  | nil => rfl
  | cons p rest ih =>
    obtain ⟨u, cf⟩ := p
    have hu : u ≠ iri := h (u, cf) (List.mem_cons_self _ _)
    obtain ⟨res, qc, node⟩ := st
    obtain ⟨nm, v, expr, vars⟩ := node
    cases expr with
    | builtin f => simp at hexpr
    | call iri2 =>
      injection hexpr with h2
      subst h2
      simp only [applyRegistry, if_neg (Ne.symm hu)]
      exact ih (fun q hq => h q (List.mem_cons_of_mem _ hq))

/-- A loop whose node calls an unregistered URI never changes its state. -/
theorem evalLoop_unregistered (reg : Registry) (iri : String) (st : LoopState)
    (rows : List Row) (hexpr : st.node.expr = Expr.call iri)
    (h : ∀ p ∈ reg, p.1 ≠ iri) :
    evalLoop reg st rows = .ok st := by
  induction rows with
  | nil => rfl
  | cons ep rest ih =>
    have hp : processOne reg st ep = .ok st := by
      obtain ⟨res, qc, node⟩ := st
      obtain ⟨nm, v, expr, vars⟩ := node
      cases expr with
      | builtin f => simp at hexpr
      | call iri2 =>
        simp only [processOne]
        exact applyRegistry_no_match reg iri _ ep hexpr h
    unfold evalLoop
    rw [hp]
    exact ih

/-- Claim C3, confirmed: when the BIND expression is a URI-bound call whose
URI matches no registered function, `eval_custom_functions` raises no error
and appends no output row for any input binding — every binding of the
child stream is silently dropped and the overall result is the empty
sequence. -/
theorem c3_unknown_uri_dropped (reg : Registry) (ctx : Ctx) (iri v : String)
    (vars : List String) (rows : List Row)
    (h : ∀ p ∈ reg, p.1 ≠ iri) :
    eval_custom_functions reg ctx ⟨"Extend", v, Expr.call iri, vars⟩ rows = .ok [] := by
  unfold eval_custom_functions
  rw [if_pos rfl, evalLoop_unregistered reg iri _ rows rfl h]
  rfl

/-- Claim C3 witness: one registered function under a different URI, one
input binding, empty output and no error. -/
theorem c3_unknown_uri_dropped_witness :
    eval_custom_functions
      [("http://example.org/g", fun r c n _ => CFRet.tuple4 r c n none)]
      ⟨[], []⟩ ⟨"Extend", "x", Expr.call "http://example.org/f", ["x"]⟩
      [[("y", Term.lit "1")]]
      = .ok [] :=
  c3_unknown_uri_dropped
    [("http://example.org/g", fun r c n _ => CFRet.tuple4 r c n none)]
    ⟨[], []⟩ "http://example.org/f" "x" ["x"] [[("y", Term.lit "1")]]
    (by
      intro p hp
      rw [List.mem_singleton] at hp
      subst hp
      decide)

/-- Claim C4, counterexample.  The claim says a built-in BIND expression is
evaluated in a scope from which the target variable's own binding is
excluded.  With target variable `x`, an input binding in which `x` is bound,
and an expression that reports whether it can see `x`, the evaluation
observes `x`'s binding: `forget(ctx, _except=part._vars)` *keeps* the
node's variables (and every variable unbound in the outer context) rather
than excluding the target. -/
theorem c4_counterexample :
    eval_custom_functions [] ⟨[], []⟩
      ⟨"Extend", "x",
        Expr.builtin (fun scope =>
          if (lookupRow scope "x").isSome then .val "sawTarget" else .val "fresh"),
        ["x"]⟩
      [[("x", Term.lit "5")]]
      = .ok [[("x", Term.lit "sawTarget")]] := rfl

/-- Claim C4, amended: a built-in BIND expression is evaluated against the
input binding filtered by rdflib's `forget(ctx, _except=part._vars)` — which
keeps the bindings of the node's own variables (the target included), of
`initBindings` variables, and of variables unbound in the outer context,
rather than excluding the target; a `SPARQLError` returned by evaluation is
raised, failing the query; otherwise the output row is the input binding
dict-merged with the target variable bound to the result wrapped as an RDF
`Literal`. -/
theorem c4_builtin_eval (reg : Registry) (ctx : Ctx) (v : String) (vars : List String)
    (f : Row → EvalOut) (ep : Row) (m val : String) :
    (f (forget ep ctx vars) = .err m →
      eval_custom_functions reg ctx ⟨"Extend", v, Expr.builtin f, vars⟩ [ep]
        = .error (.sparqlError m))
    ∧ (f (forget ep ctx vars) = .val val →
      eval_custom_functions reg ctx ⟨"Extend", v, Expr.builtin f, vars⟩ [ep]
        = .ok [merge ep [(v, Term.lit val)]]) := by
  constructor
  · intro h
    simp [eval_custom_functions, evalLoop, processOne, h, Except.map]
  · intro h
    simp [eval_custom_functions, evalLoop, processOne, h, Except.map]

/-- Claim C4 witness: a succeeding and a failing built-in evaluation at
concrete inputs. -/
theorem c4_builtin_eval_witness :
    eval_custom_functions [] ⟨[], []⟩
      ⟨"Extend", "x", Expr.builtin (fun _ => EvalOut.val "7"), []⟩ [[]]
      = .ok [merge [] [("x", Term.lit "7")]]
    ∧ eval_custom_functions [] ⟨[], []⟩
      ⟨"Extend", "x", Expr.builtin (fun _ => EvalOut.err "E"), []⟩ [[]]
      = .error (.sparqlError "E") :=
  ⟨(c4_builtin_eval [] ⟨[], []⟩ "x" [] (fun _ => EvalOut.val "7") [] "" "7").2 rfl,
   (c4_builtin_eval [] ⟨[], []⟩ "x" [] (fun _ => EvalOut.err "E") [] "E" "").1 rfl⟩

end SparqlRouter
